import Mathlib

/-
  Verification of the message ingestion and chain-sync core of the aleph.im
  Core Channel Node (py-aleph).

  Shallow embedding of:
  - aleph/chains/chaindata.py        (ChainDataService)
  - aleph/jobs/process_pending_txs.py (PendingTxProcessor.handle_pending_tx)
  - aleph/jobs/process_pending_messages.py (handle_pending_message and the
    cleanup sweep of process_pending_messages)
  - aleph/db/models/messages.py      (RejectedMessage shape)
  plus spec-modelled definitions for the message publisher admission gate and
  the instance volume-resolution handler, whose sources are not part of the
  provided tree.

  JSON values are modelled by an inductive type; Python dictionaries become
  association lists; machine floats used as epoch timestamps are modelled as
  integers (no claim depends on sub-second precision); Python exceptions
  become an explicit error type carried by Except.
-/

namespace AlephCore

/-- A JSON value, the shallow embedding of the dynamic dictionaries that
py-aleph passes around. Numbers are modelled as integers: the only numeric
fields involved in the claims are epoch timestamps and protocol versions. -/
inductive Json where
  | null : Json
  | bool : Bool → Json
  | num : Int → Json
  | str : String → Json
  | arr : List Json → Json
  | obj : List (String × Json) → Json
  deriving Repr

mutual

/-- Serialization of a JSON value, mirroring Python json.dumps with its
default separators (a comma-space between items, a colon-space after keys). -/
def Json.dumps : Json → String
  | .null => "null"
  | .bool true => "true"
  | .bool false => "false"
  | .num n => toString n
  | .str s => "\"" ++ s ++ "\""
  | .arr xs => "[" ++ Json.dumpsArray xs ++ "]"
  | .obj fs => "\x7b" ++ Json.dumpsObject fs ++ "\x7d"

/-- Serialization of the elements of a JSON array. -/
def Json.dumpsArray : List Json → String
  | [] => ""
  | [x] => Json.dumps x
  | x :: y :: xs => Json.dumps x ++ ", " ++ Json.dumpsArray (y :: xs)

/-- Serialization of the fields of a JSON object. -/
def Json.dumpsObject : List (String × Json) → String
  | [] => ""
  | [(k, v)] => "\"" ++ k ++ "\": " ++ Json.dumps v
  | (k, v) :: f :: fs =>
      "\"" ++ k ++ "\": " ++ Json.dumps v ++ ", " ++ Json.dumpsObject (f :: fs)

end

/-- Dictionary lookup on a JSON object, none on other JSON values. -/
def Json.get? : Json → String → Option Json
  | .obj fs, key => fs.lookup key
  | _, _ => none

/-- Extract a string value. -/
def Json.asStr : Json → Option String
  | .str s => some s
  | _ => none

/-- Extract a numeric value. -/
def Json.asInt : Json → Option Int
  | .num n => some n
  | _ => none

/-- The Python exception classes that the chain-data code can raise.
InvalidContent and ContentCurrentlyUnavailable subclass AlephStorageException
(aleph/exceptions.py); KeyError, TypeError, ValueError and AssertionError are
builtins. -/
inductive PyErr where
  | invalidContent
  | contentCurrentlyUnavailable
  | keyError
  | typeError
  | valueError
  | assertionError
  deriving DecidableEq, Repr

/-- Whether the exception is an AlephStorageException (class hierarchy of
aleph/exceptions.py: InvalidContent and ContentCurrentlyUnavailable both
subclass it). -/
def PyErr.isAlephStorageException : PyErr → Bool
  | .invalidContent => true
  | .contentCurrentlyUnavailable => true
  | _ => false

/-- The three chain-sync protocols (aleph/types/chain_sync.py; string values
as documented in the spec's sync envelope section). -/
inductive ChainSyncProtocol where
  | onChainSync
  | offChainSync
  | smartContract
  deriving DecidableEq, Repr

/-- String value of the protocol enum member. -/
def ChainSyncProtocol.value : ChainSyncProtocol → String
  | .onChainSync => "aleph-sync"
  | .offChainSync => "aleph-offchain-sync"
  | .smartContract => "smart-contract"

/-- A chain transaction row (ChainTxDb, aleph/db/models/chains.py): the
fields used by the chain data service. datetime is an epoch timestamp. -/
structure ChainTxDb where
  hash : String
  chain : String
  height : Int
  datetime : Int
  protocol : ChainSyncProtocol
  protocolVersion : Int
  content : Json
  deriving Repr

/-- ChainDataService._get_sync_messages: tx_content["messages"]. A missing
key raises KeyError; subscripting a non-mapping raises TypeError. -/
def getSyncMessages (txContent : Json) : Except PyErr Json :=
  match txContent with
  | .obj fs =>
    match fs.lookup "messages" with
    | some v => .ok v
    | none => .error .keyError
  | _ => .error .typeError

/-- ChainDataService._get_tx_messages_on_chain_protocol: read
tx.content["messages"] and raise InvalidContent unless it is a list. -/
def getTxMessagesOnChainProtocol (tx : ChainTxDb) : Except PyErr Json :=
  match getSyncMessages tx.content with
  | .error e => .error e
  | .ok messages =>
    match messages with
    | .arr items => .ok (.arr items)
    | _ => .error .invalidContent

/-- State threaded through the off-chain fetch: the per-worker seen_ids set
(none when the caller supplies no set), a ghost counter of storage fetch
attempts (used to state that a fetch did or did not happen), and the
StoredFile / tx_file_pin rows upserted when IPFS is enabled. -/
structure SyncState where
  seenIds : Option (List String)
  fetchAttempts : Nat
  storedFiles : List (String × Nat)
  txFilePins : List (String × String)
  deriving Repr

/-- The part of _get_tx_messages_off_chain_protocol after the seen_ids
check: fetch the blob via the storage service (any exception that is not an
AlephStorageException is converted to ContentCurrentlyUnavailable), read its
"messages" key (a KeyError here propagates: only AlephStorageException is
caught and re-raised around this read), then, when IPFS is enabled, upsert a
StoredFile row and a tx_file_pin row. The fetch-attempt counter increments
exactly when the storage service is called. -/
def offChainFetchPart (getJson : String → Except PyErr Json) (ipfsEnabled : Bool)
    (tx : ChainTxDb) (fileHash : String) (st : SyncState) :
    Except PyErr Json × SyncState :=
  let st2 : SyncState := { st with fetchAttempts := st.fetchAttempts + 1 }
  match getJson fileHash with
  | .error e =>
    if e.isAlephStorageException then (.error e, st2)
    else (.error .contentCurrentlyUnavailable, st2)
  | .ok value =>
    match getSyncMessages value with
    | .error e => (.error e, st2)
    | .ok messages =>
      if ipfsEnabled then
        (.ok messages,
         { st2 with
            storedFiles := (fileHash, (Json.dumps value).length) :: st2.storedFiles,
            txFilePins := (fileHash, tx.hash) :: st2.txFilePins })
      else (.ok messages, st2)

/-- ChainDataService._get_tx_messages_off_chain_protocol: tx.content must be
a string hash (AssertionError otherwise). When a seen_ids set is supplied, a
hash already in the set short-circuits to the empty list; otherwise the hash
is added to the set before the fetch is attempted. -/
def getTxMessagesOffChainProtocol (getJson : String → Except PyErr Json)
    (ipfsEnabled : Bool) (tx : ChainTxDb) (st : SyncState) :
    Except PyErr Json × SyncState :=
  match tx.content with
  | .str fileHash =>
    match st.seenIds with
    | some seen =>
      if fileHash ∈ seen then (.ok (Json.arr []), st)
      else
        offChainFetchPart getJson ipfsEnabled tx fileHash
          { st with seenIds := some (fileHash :: seen) }
    | none => offChainFetchPart getJson ipfsEnabled tx fileHash st
  | _ => (.error .assertionError, st)

/-- MessageEventPayload (aleph/schemas/chains/tezos_indexer_response.py):
timestamp, addr, msgtype (field name message_type), msgcontent (field name
message_content). -/
structure MessageEventPayload where
  timestamp : Int
  addr : String
  messageType : String
  messageContent : String
  deriving DecidableEq, Repr

/-- Pydantic parse of MessageEventPayload from a JSON object. The model sets
allow_population_by_field_name, so each field is read from its alias
(msgtype, msgcontent) or from the field name itself. Parsing any non-object
or an object missing a required field fails (ValidationError). -/
def parseMessageEventPayload (j : Json) : Option MessageEventPayload :=
  match j with
  | .obj _ =>
    match (j.get? "timestamp").bind Json.asInt,
          (j.get? "addr").bind Json.asStr,
          ((j.get? "msgtype").orElse fun _ => j.get? "message_type").bind Json.asStr,
          ((j.get? "msgcontent").orElse fun _ => j.get? "message_content").bind Json.asStr with
    | some ts, some addr, some mt, some mc =>
      some { timestamp := ts, addr := addr, messageType := mt, messageContent := mc }
    | _, _, _, _ => none
  | _ => none

/-- Serialization of the StoreContent pydantic model built by the smart
contract protocol handler: StoreContent(address=addr, time=timestamp,
item_type=ipfs, item_hash=msgcontent).json(). -/
def storeContentJson (address : String) (time : Int) (itemHash : String) : String :=
  Json.dumps (Json.obj
    [("address", .str address),
     ("time", .num time),
     ("item_type", .str "ipfs"),
     ("item_hash", .str itemHash)])

/-- ChainDataService._get_tx_messages_smart_contract_protocol: parse the tx
content as a MessageEventPayload (InvalidContent on failure); any message
type other than STORE_IPFS raises ValueError (the source guard reads
`if message_type := payload.message_type != "STORE_IPFS": raise ValueError`);
otherwise synthesize one inline store message. The chain field is the
constant Chain.TEZOS.value and the sha256 function of aleph/utils.py is a
parameter. -/
def getTxMessagesSmartContractProtocol (sha256hex : String → String)
    (tx : ChainTxDb) : Except PyErr (List Json) :=
  match parseMessageEventPayload tx.content with
  | none => .error .invalidContent
  | some payload =>
    if payload.messageType ≠ "STORE_IPFS" then .error .valueError
    else
      let itemContent :=
        storeContentJson payload.addr payload.timestamp payload.messageContent
      let itemHash := sha256hex itemContent
      .ok [Json.obj
        [("item_hash", .str itemHash),
         ("sender", .str payload.addr),
         ("chain", .str "TEZOS"),
         ("signature", Json.null),
         ("type", .str "store"),
         ("item_content", .str itemContent),
         ("item_type", .str "inline"),
         ("time", .num tx.datetime)]]

/-- ChainDataService.get_tx_messages: dispatch on (protocol,
protocol_version); any unknown pair raises InvalidContent. -/
def getTxMessages (getJson : String → Except PyErr Json) (sha256hex : String → String)
    (ipfsEnabled : Bool) (tx : ChainTxDb) (st : SyncState) :
    Except PyErr Json × SyncState :=
  match tx.protocol, tx.protocolVersion with
  | .onChainSync, 1 => (getTxMessagesOnChainProtocol tx, st)
  | .offChainSync, 1 => getTxMessagesOffChainProtocol getJson ipfsEnabled tx st
  | .smartContract, 1 =>
    ((getTxMessagesSmartContractProtocol sha256hex tx).map Json.arr, st)
  | _, _ => (.error .invalidContent, st)

/-- The on-chain sync envelope built by ChainDataService.get_chaindata. -/
def onChainSyncEnvelope (messageDicts : List Json) : Json :=
  Json.obj
    [("protocol", .str ChainSyncProtocol.onChainSync.value),
     ("version", .num 1),
     ("content", Json.obj [("messages", Json.arr messageDicts)])]

/-- The off-chain sync envelope built by ChainDataService.get_chaindata when
the inline envelope exceeds the bulk threshold. -/
def offChainSyncEnvelope (ipfsId : String) : Json :=
  Json.obj
    [("protocol", .str ChainSyncProtocol.offChainSync.value),
     ("version", .num 1),
     ("content", .str ipfsId)]

/-- ChainDataService.get_chaindata: serialize the on-chain envelope; when its
length exceeds bulk_threshold, store the envelope object through the storage
service (modelled by the content-addressing function addJsonHash; the second
component records the (hash, stored object) pairs written to storage) and
return the serialized off-chain envelope instead. -/
def getChaindata (addJsonHash : Json → String) (messageDicts : List Json)
    (bulkThreshold : Nat) : String × List (String × Json) :=
  let chaindata := onChainSyncEnvelope messageDicts
  let content := Json.dumps chaindata
  if content.length > bulkThreshold then
    let ipfsId := addJsonHash chaindata
    (Json.dumps (offChainSyncEnvelope ipfsId), [(ipfsId, chaindata)])
  else
    (content, [])

/-- A chain transaction carrying a sync envelope, as assumed by the
round-trip claim: the envelope's protocol, version and content fields become
the tx's protocol, protocol_version and content columns. -/
def chainTxOfEnvelope (txHash chain : String) (height datetime : Int)
    (envelope : Json) : Option ChainTxDb :=
  match (envelope.get? "protocol").bind Json.asStr,
        (envelope.get? "version").bind Json.asInt,
        envelope.get? "content" with
  | some p, some v, some c =>
    let proto :=
      if p = ChainSyncProtocol.onChainSync.value then some ChainSyncProtocol.onChainSync
      else if p = ChainSyncProtocol.offChainSync.value then some ChainSyncProtocol.offChainSync
      else if p = ChainSyncProtocol.smartContract.value then some ChainSyncProtocol.smartContract
      else none
    proto.map fun protocol =>
      { hash := txHash, chain := chain, height := height, datetime := datetime,
        protocol := protocol, protocolVersion := v, content := c }
  | _, _, _ => none

/-- A storage service that returns, for a hash, exactly the JSON stored
under it (the round-trip claim's assumption), and reports anything else as
currently unavailable. -/
def storageGetJson (store : List (String × Json)) (contentHash : String) :
    Except PyErr Json :=
  match store.lookup contentHash with
  | some v => .ok v
  | none => .error .contentCurrentlyUnavailable

/-- A candidate message admitted by the message publisher from a chain tx
(PendingTxProcessor.handle_pending_tx calls add_pending_message with the
message dict, reception_time=utc_now(), the tx hash, and check_message set
unless the tx uses the smart contract protocol). -/
structure AdmittedMessage where
  messageDict : Json
  receptionTime : Int
  txHash : String
  checkMessage : Bool
  deriving Repr

/-- The database state visible to the pending-tx processor: the pending_txs
table (tx_hash to the referenced ChainTx row) and the admissions performed
through the message publisher. -/
structure TxProcessorState where
  pendingTxs : List (String × ChainTxDb)
  admitted : List AdmittedMessage
  deriving Repr

/-- PendingTxProcessor.handle_pending_tx: look up the pending tx (return
unchanged when it is not pending anymore); ask the chain data service for
the candidate messages; admit each candidate through the message publisher;
delete the pending_txs row and commit. When the service raises, the
exception propagates before any admission and before the delete, the session
is never committed, and the error return therefore carries no new state: the
database is unchanged and broker redelivery will retry. -/
def handlePendingTx (getMessages : ChainTxDb → Except PyErr (List Json))
    (now : Int) (pendingTxHash : String) (st : TxProcessorState) :
    Except PyErr TxProcessorState :=
  match st.pendingTxs.lookup pendingTxHash with
  | none => .ok st
  | some tx =>
    match getMessages tx with
    | .error e => .error e
    | .ok messages =>
      let newAdmitted := messages.map fun messageDict =>
        { messageDict := messageDict, receptionTime := now, txHash := tx.hash,
          checkMessage := tx.protocol != ChainSyncProtocol.smartContract :
          AdmittedMessage }
      .ok { pendingTxs := st.pendingTxs.filter fun kv => kv.1 != pendingTxHash,
            admitted := st.admitted ++ newAdmitted }

/-- The source document of a mongo-era pending message (the source subfield
read by aleph/jobs/process_pending_messages.py). -/
structure PendingSource where
  chainName : Option String
  txHash : Option String
  height : Option Int
  checkMessage : Bool
  deriving DecidableEq, Repr

/-- A mongo-era pending message document: the fields used by the scan loop
and the cleanup sweep of process_pending_messages. -/
structure PendingMessageDoc where
  docId : Nat
  itemHash : String
  sender : String
  source : PendingSource
  deriving DecidableEq, Repr

/-- The filter of one DeleteMany action built by the cleanup sweep for a
seen_ids entry (key, height): message.item_hash = key[0], message.sender =
key[1], source.chain_name = key[2] and source.height greater than the
recorded height (a mongo greater-than query does not match a missing
height). -/
def matchesCleanupFilter (key : String × String × Option String) (height : Int)
    (doc : PendingMessageDoc) : Bool :=
  (doc.itemHash == key.1) && (doc.sender == key.2.1) &&
  (doc.source.chainName == key.2.2) &&
  (match doc.source.height with
   | some h => height < h
   | none => false)

/-- The bulk write of the cleanup sweep: every document matched by some
DeleteMany action is removed. -/
def cleanupSweep (seenIds : List ((String × String × Option String) × Int))
    (docs : List PendingMessageDoc) : List PendingMessageDoc :=
  docs.filter fun doc => ! seenIds.any fun kv => matchesCleanupFilter kv.1 kv.2 doc

/-- The cleanup step at the end of one run of process_pending_messages: the
sweep runs only when the pending message collection holds more than 100000
documents. -/
def processPendingMessagesCleanup
    (seenIds : List ((String × String × Option String) × Int))
    (docs : List PendingMessageDoc) : List PendingMessageDoc :=
  if docs.length > 100000 then cleanupSweep seenIds docs else docs

/-- The statuses returned by aleph.chains.common.incoming as observed by
handle_pending_message. -/
inductive IncomingStatus where
  | messageHandled
  | failedPermanently
  | retryingLater
  deriving DecidableEq, Repr

/-- A database bulk operation returned by handle_pending_message: either the
DeleteOne on the pending message collection that the function itself builds,
or an operation coming out of incoming (tagged by an opaque index). -/
inductive PipelineOp where
  | deletePendingMessage (docId : Nat)
  | incomingOp (opId : Nat)
  deriving DecidableEq, Repr

/-- handle_pending_message (aleph/jobs/process_pending_messages.py): build
the DeleteOne for the pending document; when parse_message raises
InvalidMessageError return only that delete; otherwise run incoming and
append the delete unless the status is RETRYING_LATER. parse_message and
incoming are collaborators passed as functions. -/
def handlePendingMessage (parseMessage : Json → Except Unit Json)
    (incoming : Json → IncomingStatus × List PipelineOp)
    (doc : PendingMessageDoc) (rawMessage : Json) : List PipelineOp :=
  let deleteOp := PipelineOp.deletePendingMessage doc.docId
  match parseMessage rawMessage with
  | .error _ => [deleteOp]
  | .ok message =>
    let statusOps := incoming message
    if statusOps.1 = IncomingStatus.retryingLater then statusOps.2
    else statusOps.2 ++ [deleteOp]

/-- The logical key of a pending message: (item_hash, sender, source_chain,
source_height). -/
structure PendingKey where
  itemHash : String
  sender : String
  sourceChain : Option String
  sourceHeight : Option Int
  deriving DecidableEq, Repr

/-- Modelled from the spec: the logical key computed by
MessagePublisher.add_pending_message (aleph/handlers/message_handler.py is
not part of the provided sources). The key is read from the message dict's
item_hash and sender fields together with the origin's chain and height;
a dict missing either field is not admissible. -/
def messagePendingKey (m : Json) (sourceChain : Option String)
    (sourceHeight : Option Int) : Option PendingKey :=
  match (m.get? "item_hash").bind Json.asStr, (m.get? "sender").bind Json.asStr with
  | some ih, some s =>
    some { itemHash := ih, sender := s, sourceChain := sourceChain,
           sourceHeight := sourceHeight }
  | _, _ => none

/-- The pending_messages table as seen by the publisher: logical key to the
row's reception_time (the only column the idempotence claim observes). -/
structure PublisherState where
  pendingRows : List (PendingKey × Int)
  deriving Repr

/-- Number of pending rows carrying a given logical key. -/
def countKey (rows : List (PendingKey × Int)) (key : PendingKey) : Nat :=
  (rows.filter fun kv => kv.1 == key).length

/-- Modelled from the spec: MessagePublisher.add_pending_message
(aleph/handlers/message_handler.py is not part of the provided sources;
steps 3 and 4 of spec section 4.3). Compute the logical key; if a
PendingMessage with the same key exists, return it unchanged (same
reception_time); otherwise insert a new row with the given reception_time.
The returned value is the reception_time of the returned PendingMessage,
none when the dict is not admissible. -/
def addPendingMessage (m : Json) (receptionTime : Int)
    (sourceChain : Option String) (sourceHeight : Option Int)
    (st : PublisherState) : Option Int × PublisherState :=
  match messagePendingKey m sourceChain sourceHeight with
  | none => (none, st)
  | some key =>
    match st.pendingRows.lookup key with
    | some existing => (some existing, st)
    | none =>
      (some receptionTime,
       { pendingRows := (key, receptionTime) :: st.pendingRows })

/-- Message status values (aleph/types/message_status.py). -/
inductive MessageStatus where
  | pending
  | processed
  | rejected
  | forgotten
  | removing
  deriving DecidableEq, Repr

/-- Error codes of the rejection table (aleph/types/message_status.py
ErrorCode, the values listed in the spec's error handling section). -/
inductive ErrorCode where
  | invalidFormat
  | contentHashMismatch
  | invalidSignature
  | contentValidationFailed
  | contentUnavailable
  | vmVolumeNotFound
  | permissionDenied
  | exceededRetries
  deriving DecidableEq, Repr

/-- A rejected_messages row (RejectedMessageDb, aleph/db/models/messages.py):
item_hash, error_code, the details errors list, and the optional traceback. -/
structure RejectedMessageRow where
  itemHash : String
  errorCode : ErrorCode
  detailsErrors : Option (List String)
  traceback : Option String
  deriving DecidableEq, Repr

/-- Outcome of one pipeline pass over a pending instance message: the
created instance row if any, the resulting message status, and the
rejected_messages row if any. -/
structure InstancePassOutcome where
  instanceRow : Option String
  status : MessageStatus
  rejectedRow : Option RejectedMessageRow
  deriving DecidableEq, Repr

/-- Modelled from the spec: the instance/program volume-resolution handler
(aleph/handlers/content/vm.py is not part of the provided sources; spec
section 4.5 and the missing-volume scenario). Each declared volume ref must
resolve to a StoredFile row through file pins or tags, abstracted here as
the list of resolvable refs. Any missing ref rejects the message with
VM_VOLUME_NOT_FOUND, details.errors listing the missing refs and no
traceback, and creates no instance row; otherwise the message is processed
and the instance row created. -/
def processInstanceMessage (availableRefs : List String) (itemHash : String)
    (volumeRefs : List String) : InstancePassOutcome :=
  let missing := volumeRefs.filter fun ref => ! availableRefs.contains ref
  if missing.isEmpty then
    { instanceRow := some itemHash, status := .processed, rejectedRow := none }
  else
    { instanceRow := none, status := .rejected,
      rejectedRow := some
        { itemHash := itemHash, errorCode := .vmVolumeNotFound,
          detailsErrors := some missing, traceback := none } }

/-- A sync state with no seen_ids set, no fetches and no storage rows. -/
def emptySyncState : SyncState :=
  { seenIds := none, fetchAttempts := 0, storedFiles := [], txFilePins := [] }

/-- A sync state with an empty seen_ids set supplied by the caller. -/
def freshSeenSyncState : SyncState :=
  { seenIds := some [], fetchAttempts := 0, storedFiles := [], txFilePins := [] }

/-- Concrete seen_ids window for the cleanup sweep: one logical key recorded
at source height 5. -/
def c1SeenIds : List ((String × String × Option String) × Int) :=
  [(("mh", "alice", some "ETH"), 5)]

/-- A pending document with the recorded key and source height 10. -/
def c1HighRow : PendingMessageDoc :=
  { docId := 1, itemHash := "mh", sender := "alice",
    source := { chainName := some "ETH", txHash := none, height := some 10,
                checkMessage := true } }

/-- A pending document with the recorded key and source height 3. -/
def c1LowRow : PendingMessageDoc :=
  { docId := 2, itemHash := "mh", sender := "alice",
    source := { chainName := some "ETH", txHash := none, height := some 3,
                checkMessage := true } }

/-- A filler pending document with an unrelated key, used to push the table
over the 100000-row high-water mark. -/
def c1Filler : PendingMessageDoc :=
  { docId := 0, itemHash := "other", sender := "bob",
    source := { chainName := none, txHash := none, height := none,
                checkMessage := true } }

/-- A pending-message table of 100002 documents: the two same-key documents
plus 100000 fillers. -/
def c1Table : List PendingMessageDoc :=
  c1HighRow :: c1LowRow :: List.replicate 100000 c1Filler

/-- A smart contract tx whose parsed payload carries a message type other
than STORE_IPFS. -/
def c2Tx : ChainTxDb :=
  { hash := "tx-2", chain := "TEZOS", height := 7, datetime := 1700000000,
    protocol := .smartContract, protocolVersion := 1,
    content := Json.obj
      [("timestamp", .num 1700000000), ("addr", .str "tz1abc"),
       ("msgtype", .str "STORE_STRING"), ("msgcontent", .str "hello")] }

/-- A smart contract STORE_IPFS tx recorded on a chain other than Tezos. -/
def c3Tx : ChainTxDb :=
  { hash := "tx-3", chain := "ETH", height := 9, datetime := 1700000100,
    protocol := .smartContract, protocolVersion := 1,
    content := Json.obj
      [("timestamp", .num 1700000050), ("addr", .str "tz1xyz"),
       ("msgtype", .str "STORE_IPFS"), ("msgcontent", .str "QmContentHash")] }

/-- A placeholder content-addressing function standing for sha256. -/
def c3Sha : String → String := fun s => String.append s "-sha256"

/-- The item_content the smart contract handler synthesizes for c3Tx. -/
def c3ItemContent : String :=
  storeContentJson "tz1xyz" 1700000050 "QmContentHash"

/-- The single candidate message the smart contract handler returns for
c3Tx. -/
def c3ExpectedMessage : Json :=
  Json.obj
    [("item_hash", .str (c3Sha c3ItemContent)),
     ("sender", .str "tz1xyz"),
     ("chain", .str "TEZOS"),
     ("signature", Json.null),
     ("type", .str "store"),
     ("item_content", .str c3ItemContent),
     ("item_type", .str "inline"),
     ("time", .num 1700000100)]

/-- A chain tx referenced by a concrete pending_txs row. -/
def c4Tx : ChainTxDb :=
  { hash := "tx-4", chain := "ETH", height := 21, datetime := 1700000200,
    protocol := .onChainSync, protocolVersion := 1,
    content := Json.obj [("messages", Json.arr [])] }

/-- A processor state holding exactly one pending tx. -/
def c4State : TxProcessorState :=
  { pendingTxs := [("tx-4", c4Tx)], admitted := [] }

/-- A concrete candidate message dict returned by the chain data service. -/
def c4MsgDict : Json :=
  Json.obj [("item_hash", .str "0xaaa"), ("sender", .str "0xbbb")]

/-- A concrete well-formed message dict for the admission idempotence
claim. -/
def c5Message : Json :=
  Json.obj [("item_hash", .str "0xitem"), ("sender", .str "0xsender"),
            ("type", .str "POST"), ("time", .num 1700000300)]

/-- The logical key of c5Message admitted from the peer-to-peer path. -/
def c5Key : PendingKey :=
  { itemHash := "0xitem", sender := "0xsender", sourceChain := none,
    sourceHeight := none }

/-- The hash the storage service assigns to the bulk envelope in the
round-trip scenario. -/
def c7StoreHash : String := "QmBulkEnvelope"

/-- A content-addressing function returning that hash. -/
def c7HashFn : Json → String := fun _ => c7StoreHash

/-- The encoder run with an empty batch and threshold 0, which takes the
off-chain branch. -/
def c7Encoded : String × List (String × Json) := getChaindata c7HashFn [] 0

/-- The chain tx carrying the produced off-chain envelope. -/
def c7Tx : ChainTxDb :=
  { hash := "tx-7", chain := "ETH", height := 33, datetime := 1700000400,
    protocol := .offChainSync, protocolVersion := 1,
    content := .str c7StoreHash }

/-- The volume refs declared by the fixture instance message of the
missing-volume scenario (rootfs parent and the immutable volume). -/
def c8VolumeRefs : List String :=
  ["549ec451d9b099cad112d4aaa2c00ac40fb6729a92ff252ff22eef0b5c3cb613",
   "5f31b0706f59404fad3d0bff97ef89ddf24da4761608ea0646329362c662ba51"]

/-- The fixture instance message hash. -/
def c8ItemHash : String :=
  "734a1287a2b7b5be060312ff5b05ad1bcf838950492e3428f2ac6437a1acad26"

/-- An off-chain sync tx whose content hash will fail to fetch. -/
def c9Tx : ChainTxDb :=
  { hash := "tx-9", chain := "ETH", height := 44, datetime := 1700000500,
    protocol := .offChainSync, protocolVersion := 1,
    content := .str "QmUnavailable" }

/-- A storage service for which every fetch fails with InvalidContent. -/
def c9GetJson : String → Except PyErr Json := fun _ => .error .invalidContent

/-- A concrete pending document for the invalid-message claim. -/
def c10Doc : PendingMessageDoc :=
  { docId := 77, itemHash := "0xbad", sender := "0xsender",
    source := { chainName := none, txHash := none, height := none,
                checkMessage := true } }

/-- A parser that rejects every raw message dict. -/
def c10FailingParse : Json → Except Unit Json := fun _ => .error ()

/-- An incoming collaborator whose operations would be observable if they
were ever emitted. -/
def c10Incoming : Json → IncomingStatus × List PipelineOp :=
  fun _ => (IncomingStatus.messageHandled, [PipelineOp.incomingOp 0])

/-- A pending row with the looked-up key exists whenever lookup succeeds. -/
theorem countKey_pos_of_lookup_some (rows : List (PendingKey × Int))
    (key : PendingKey) (t : Int) (h : rows.lookup key = some t) :
    0 < countKey rows key := by
  induction rows with
  | nil => simp [List.lookup] at h
  | cons hd tl ih =>
    obtain ⟨a, b⟩ := hd
    by_cases hk : key = a
    · have hb : (a == key) = true := by simp [hk]
      simp [countKey, List.filter, hb]
    · have h1 : (key == a) = false := by
        rw [beq_eq_false_iff_ne]
        exact hk
      have h2 : (a == key) = false := by
        rw [beq_eq_false_iff_ne]
        exact Ne.symm hk
      simp only [List.lookup, h1] at h
      simp only [countKey, List.filter, h2]
      exact ih h

/-- No pending row carries the key when lookup fails. -/
theorem countKey_eq_zero_of_lookup_none (rows : List (PendingKey × Int))
    (key : PendingKey) (h : rows.lookup key = none) :
    countKey rows key = 0 := by
  induction rows with
  | nil => rfl
  | cons hd tl ih =>
    obtain ⟨a, b⟩ := hd
    by_cases hk : key = a
    · have hb : (key == a) = true := by simp [hk]
      simp [List.lookup, hb] at h
    · have h1 : (key == a) = false := by
        rw [beq_eq_false_iff_ne]
        exact hk
      have h2 : (a == key) = false := by
        rw [beq_eq_false_iff_ne]
        exact Ne.symm hk
      simp only [List.lookup, h1] at h
      simp only [countKey, List.filter, h2]
      exact ih h

/-- Looking up a key in a list filtered to exclude that key yields none. -/
theorem lookup_filter_bne_eq_none (rows : List (String × ChainTxDb)) (k : String) :
    (rows.filter fun kv => kv.1 != k).lookup k = none := by
  induction rows with
  | nil => rfl
  | cons hd tl ih =>
    obtain ⟨a, b⟩ := hd
    by_cases ha : a = k
    · have hb : (a != k) = false := by simp [bne, ha]
      simp only [List.filter, hb]
      exact ih
    · have hb : (a != k) = true := by simp [bne, ha]
      have h1 : (k == a) = false := by
        rw [beq_eq_false_iff_ne]
        exact Ne.symm ha
      simp only [List.filter, hb]
      simp only [List.lookup, h1]
      exact ih

/-- Claim C10: at the pipeline boundary, a pending-message record whose
stored message dict fails to parse is deleted from the pending table and
nothing else: handle_pending_message returns only the DeleteOne on the
pending message collection, so no rejection row is created and no message
status transition is emitted for that item. -/
theorem c10_invalid_pending_message_only_deleted
    (parseMessage : Json → Except Unit Json)
    (incoming : Json → IncomingStatus × List PipelineOp)
    (doc : PendingMessageDoc) (rawMessage : Json)
    (hparse : parseMessage rawMessage = .error ()) :
    handlePendingMessage parseMessage incoming doc rawMessage =
      [PipelineOp.deletePendingMessage doc.docId] := by
  simp [handlePendingMessage, hparse]

/-- Witness for C10 at a concrete unparseable pending document. -/
theorem c10_invalid_pending_message_only_deleted_witness :
    c10FailingParse Json.null = .error () ∧
    handlePendingMessage c10FailingParse c10Incoming c10Doc Json.null =
      [PipelineOp.deletePendingMessage 77] :=
  ⟨rfl,
   c10_invalid_pending_message_only_deleted c10FailingParse c10Incoming c10Doc
     Json.null rfl⟩

/-- Claim C2 (counterexample): a smart contract v1 tx whose content parses
but whose message type is not STORE_IPFS makes get_tx_messages raise
ValueError, which is not the InvalidContent class used for unparseable
content and unknown protocols. -/
theorem c2_smart_contract_counterexample :
    (getTxMessages (storageGetJson []) c3Sha false c2Tx emptySyncState).1 =
      .error PyErr.valueError ∧
    PyErr.valueError ≠ PyErr.invalidContent :=
  ⟨rfl, by decide⟩

/-- Claim C2 (amended): for every smart contract v1 tx whose content parses
as a message event payload with a message type other than STORE_IPFS,
get_tx_messages raises ValueError (not InvalidContent). -/
theorem c2_smart_contract_bad_msgtype_value_error
    (getJson : String → Except PyErr Json) (sha256hex : String → String)
    (ipfsEnabled : Bool) (tx : ChainTxDb) (st : SyncState)
    (payload : MessageEventPayload)
    (hproto : tx.protocol = .smartContract) (hver : tx.protocolVersion = 1)
    (hparse : parseMessageEventPayload tx.content = some payload)
    (hmt : payload.messageType ≠ "STORE_IPFS") :
    (getTxMessages getJson sha256hex ipfsEnabled tx st).1 =
      .error PyErr.valueError := by
  obtain ⟨txh, c, ht, d, p, v, ct⟩ := tx
  simp only at hproto hver hparse
  subst hproto hver
  simp [getTxMessages, getTxMessagesSmartContractProtocol, hparse, hmt,
    Except.map]

/-- Witness for the amended C2 at the concrete STORE_STRING tx. -/
theorem c2_smart_contract_bad_msgtype_value_error_witness :
    c2Tx.protocol = ChainSyncProtocol.smartContract ∧
    parseMessageEventPayload c2Tx.content =
      some ⟨1700000000, "tz1abc", "STORE_STRING", "hello"⟩ ∧
    (getTxMessages (storageGetJson []) c3Sha false c2Tx emptySyncState).1 =
      .error PyErr.valueError :=
  ⟨rfl, rfl,
   c2_smart_contract_bad_msgtype_value_error (storageGetJson []) c3Sha false
     c2Tx emptySyncState ⟨1700000000, "tz1abc", "STORE_STRING", "hello"⟩
     rfl rfl rfl (by decide)⟩

/-- Claim C3 (counterexample): a smart contract STORE_IPFS tx observed on a
chain other than Tezos still yields a candidate whose chain field is the
constant TEZOS, so the chain of the candidate is not the chain of the
originating tx. -/
theorem c3_smart_contract_chain_counterexample :
    (getTxMessages (storageGetJson []) c3Sha false c3Tx emptySyncState).1 =
      .ok (Json.arr [c3ExpectedMessage]) ∧
    c3ExpectedMessage.get? "chain" = some (Json.str "TEZOS") ∧
    c3Tx.chain = "ETH" ∧
    ("TEZOS" : String) ≠ "ETH" :=
  ⟨rfl, rfl, rfl, by decide⟩

/-- Claim C3 (amended): for every smart contract v1 tx whose content parses
as a STORE_IPFS message event, get_tx_messages returns exactly one candidate
message dict with item_type inline, signature null, sender equal to the
payload addr, time equal to the epoch of the tx datetime, item_hash equal to
the sha256 of the synthesized item_content, and chain equal to the constant
TEZOS regardless of the chain of the originating tx. -/
theorem c3_smart_contract_store_ipfs_message
    (getJson : String → Except PyErr Json) (sha256hex : String → String)
    (ipfsEnabled : Bool) (tx : ChainTxDb) (st : SyncState)
    (payload : MessageEventPayload)
    (hproto : tx.protocol = .smartContract) (hver : tx.protocolVersion = 1)
    (hparse : parseMessageEventPayload tx.content = some payload)
    (hmt : payload.messageType = "STORE_IPFS") :
    (getTxMessages getJson sha256hex ipfsEnabled tx st).1 =
      .ok (Json.arr [Json.obj
        [("item_hash", .str (sha256hex (storeContentJson payload.addr
            payload.timestamp payload.messageContent))),
         ("sender", .str payload.addr),
         ("chain", .str "TEZOS"),
         ("signature", Json.null),
         ("type", .str "store"),
         ("item_content", .str (storeContentJson payload.addr
            payload.timestamp payload.messageContent)),
         ("item_type", .str "inline"),
         ("time", .num tx.datetime)]]) := by
  obtain ⟨txh, c, ht, d, p, v, ct⟩ := tx
  simp only at hproto hver hparse
  subst hproto hver
  simp [getTxMessages, getTxMessagesSmartContractProtocol, hparse, hmt,
    Except.map]

/-- Witness for the amended C3 at the concrete STORE_IPFS tx on ETH. -/
theorem c3_smart_contract_store_ipfs_message_witness :
    c3Tx.protocol = ChainSyncProtocol.smartContract ∧
    parseMessageEventPayload c3Tx.content =
      some ⟨1700000050, "tz1xyz", "STORE_IPFS", "QmContentHash"⟩ ∧
    (getTxMessages (storageGetJson []) c3Sha false c3Tx emptySyncState).1 =
      .ok (Json.arr [Json.obj
        [("item_hash", .str (c3Sha (storeContentJson "tz1xyz" 1700000050
            "QmContentHash"))),
         ("sender", .str "tz1xyz"),
         ("chain", .str "TEZOS"),
         ("signature", Json.null),
         ("type", .str "store"),
         ("item_content", .str (storeContentJson "tz1xyz" 1700000050
            "QmContentHash")),
         ("item_type", .str "inline"),
         ("time", .num 1700000100)]]) :=
  ⟨rfl, rfl,
   c3_smart_contract_store_ipfs_message (storageGetJson []) c3Sha false
     c3Tx emptySyncState ⟨1700000050, "tz1xyz", "STORE_IPFS", "QmContentHash"⟩
     rfl rfl rfl rfl⟩

/-- Claim C6: get_chaindata builds the on-chain sync envelope; exactly when
its serialization exceeds the bulk threshold it stores the envelope through
the storage service and returns the off-chain envelope carrying the
resulting hash, and otherwise it returns the serialized inline envelope and
stores nothing. -/
theorem c6_get_chaindata_threshold (addJsonHash : Json → String)
    (messageDicts : List Json) (bulkThreshold : Nat) :
    ((Json.dumps (onChainSyncEnvelope messageDicts)).length > bulkThreshold →
      getChaindata addJsonHash messageDicts bulkThreshold =
        (Json.dumps (offChainSyncEnvelope
            (addJsonHash (onChainSyncEnvelope messageDicts))),
         [(addJsonHash (onChainSyncEnvelope messageDicts),
           onChainSyncEnvelope messageDicts)]))
    ∧ ((Json.dumps (onChainSyncEnvelope messageDicts)).length ≤ bulkThreshold →
      getChaindata addJsonHash messageDicts bulkThreshold =
        (Json.dumps (onChainSyncEnvelope messageDicts), [])) := by
  constructor
  · intro h
    simp only [getChaindata]
    rw [if_pos h]
  · intro h
    simp only [getChaindata]
    rw [if_neg (Nat.not_lt.mpr h)]

/-- Witness for C6: on an empty batch with threshold 0 the serialized
envelope exceeds the threshold and the off-chain branch is taken. -/
theorem c6_get_chaindata_threshold_witness :
    (Json.dumps (onChainSyncEnvelope [])).length > 0 ∧
    getChaindata c7HashFn [] 0 =
      (Json.dumps (offChainSyncEnvelope (c7HashFn (onChainSyncEnvelope []))),
       [(c7HashFn (onChainSyncEnvelope []), onChainSyncEnvelope [])]) :=
  ⟨by decide, (c6_get_chaindata_threshold c7HashFn [] 0).1 (by decide)⟩

/-- Claim C7 (code bug witnessed at a concrete input): the encoder stores
the full on-chain envelope under the hash, but the off-chain decoder looks
up a top-level messages key in the fetched blob, so decoding the envelope
produced by get_chaindata with a threshold forcing the off-chain branch
raises KeyError instead of returning the original (empty) message list,
breaking the claimed round-trip even though the storage service returns for
the hash exactly the JSON stored under it. -/
theorem c7_roundtrip_breaks :
    c7Encoded = (Json.dumps (offChainSyncEnvelope c7StoreHash),
                 [(c7StoreHash, onChainSyncEnvelope [])]) ∧
    chainTxOfEnvelope "tx-7" "ETH" 33 1700000400
      (offChainSyncEnvelope c7StoreHash) = some c7Tx ∧
    (getTxMessages (storageGetJson c7Encoded.2) c3Sha false c7Tx
      emptySyncState).1 = .error PyErr.keyError ∧
    (Except.error PyErr.keyError : Except PyErr Json) ≠ .ok (Json.arr []) :=
  ⟨rfl, rfl, rfl, fun h => Except.noConfusion h⟩

/-- Claim C9: in the off-chain fetch with a seen_ids set supplied, the
content hash is added to the set before the storage fetch is attempted, so
when the fetch fails the error propagates while the hash stays recorded,
and a later call for the same hash against the resulting set returns the
empty list without attempting another fetch (the ghost fetch counter stays
put and the state is unchanged), even though the bundle's messages were
never admitted. -/
theorem c9_seen_ids_added_before_fetch (getJson : String → Except PyErr Json)
    (ipfsEnabled : Bool) (tx : ChainTxDb) (st : SyncState)
    (fileHash : String) (seen : List String) (e : PyErr)
    (hcontent : tx.content = .str fileHash)
    (hseen : st.seenIds = some seen)
    (hnotseen : fileHash ∉ seen)
    (hfetch : getJson fileHash = .error e) :
    (getTxMessagesOffChainProtocol getJson ipfsEnabled tx st).1 =
      .error (if e.isAlephStorageException then e
              else .contentCurrentlyUnavailable) ∧
    (getTxMessagesOffChainProtocol getJson ipfsEnabled tx st).2.seenIds =
      some (fileHash :: seen) ∧
    (getTxMessagesOffChainProtocol getJson ipfsEnabled tx st).2.fetchAttempts =
      st.fetchAttempts + 1 ∧
    (getTxMessagesOffChainProtocol getJson ipfsEnabled tx
      (getTxMessagesOffChainProtocol getJson ipfsEnabled tx st).2).1 =
      .ok (Json.arr []) ∧
    (getTxMessagesOffChainProtocol getJson ipfsEnabled tx
      (getTxMessagesOffChainProtocol getJson ipfsEnabled tx st).2).2 =
      (getTxMessagesOffChainProtocol getJson ipfsEnabled tx st).2 := by
  have h1 : getTxMessagesOffChainProtocol getJson ipfsEnabled tx st =
      (.error (if e.isAlephStorageException then e
               else .contentCurrentlyUnavailable),
       { st with seenIds := some (fileHash :: seen),
                 fetchAttempts := st.fetchAttempts + 1 }) := by
    by_cases ha : e.isAlephStorageException
    · simp [getTxMessagesOffChainProtocol, hcontent, hseen, hnotseen,
        offChainFetchPart, hfetch, ha]
    · simp [getTxMessagesOffChainProtocol, hcontent, hseen, hnotseen,
        offChainFetchPart, hfetch, ha]
  have h2 : getTxMessagesOffChainProtocol getJson ipfsEnabled tx
      ({ st with seenIds := some (fileHash :: seen),
                 fetchAttempts := st.fetchAttempts + 1 } : SyncState) =
      (.ok (Json.arr []),
       { st with seenIds := some (fileHash :: seen),
                 fetchAttempts := st.fetchAttempts + 1 }) := by
    simp [getTxMessagesOffChainProtocol, hcontent]
  rw [h1]
  exact ⟨rfl, rfl, rfl, by rw [h2], by rw [h2]⟩

/-- Witness for C9 at a concrete off-chain tx whose fetch fails with
InvalidContent against an initially empty seen_ids set. -/
theorem c9_seen_ids_added_before_fetch_witness :
    "QmUnavailable" ∉ ([] : List String) ∧
    (getTxMessagesOffChainProtocol c9GetJson false c9Tx freshSeenSyncState).1 =
      .error PyErr.invalidContent ∧
    (getTxMessagesOffChainProtocol c9GetJson false c9Tx
      freshSeenSyncState).2.seenIds = some ["QmUnavailable"] ∧
    (getTxMessagesOffChainProtocol c9GetJson false c9Tx
      freshSeenSyncState).2.fetchAttempts = 1 ∧
    (getTxMessagesOffChainProtocol c9GetJson false c9Tx
      (getTxMessagesOffChainProtocol c9GetJson false c9Tx
        freshSeenSyncState).2).1 = .ok (Json.arr []) ∧
    (getTxMessagesOffChainProtocol c9GetJson false c9Tx
      (getTxMessagesOffChainProtocol c9GetJson false c9Tx
        freshSeenSyncState).2).2 =
      (getTxMessagesOffChainProtocol c9GetJson false c9Tx
        freshSeenSyncState).2 :=
  ⟨by decide,
   c9_seen_ids_added_before_fetch c9GetJson false c9Tx freshSeenSyncState
     "QmUnavailable" [] PyErr.invalidContent rfl rfl (by decide) rfl⟩

/-- Claim C4: for a tx hash whose pending_txs row exists, handle_pending_tx
deletes the row and commits exactly when the chain data service returns a
candidate list (including the empty list), admitting every candidate; when
the service raises, the exception propagates, the session is never
committed, and the pending row together with the rest of the database is
left unchanged so broker redelivery can retry. -/
theorem c4_handle_pending_tx_commit_or_retry
    (getMessages : ChainTxDb → Except PyErr (List Json)) (now : Int)
    (pendingTxHash : String) (st : TxProcessorState) (tx : ChainTxDb)
    (hpresent : st.pendingTxs.lookup pendingTxHash = some tx) :
    (∀ messages, getMessages tx = .ok messages →
      ∃ st2, handlePendingTx getMessages now pendingTxHash st = .ok st2 ∧
        st2.pendingTxs.lookup pendingTxHash = none ∧
        (∀ kv ∈ st.pendingTxs, kv.1 ≠ pendingTxHash → kv ∈ st2.pendingTxs) ∧
        (∀ kv ∈ st2.pendingTxs, kv ∈ st.pendingTxs) ∧
        st2.admitted = st.admitted ++ messages.map (fun messageDict =>
          { messageDict := messageDict, receptionTime := now,
            txHash := tx.hash,
            checkMessage := tx.protocol != ChainSyncProtocol.smartContract }))
    ∧ (∀ e, getMessages tx = .error e →
        handlePendingTx getMessages now pendingTxHash st = .error e) := by
  constructor
  · intro messages hok
    refine ⟨{ pendingTxs := st.pendingTxs.filter fun kv => kv.1 != pendingTxHash,
              admitted := st.admitted ++ messages.map fun messageDict =>
                { messageDict := messageDict, receptionTime := now,
                  txHash := tx.hash,
                  checkMessage := tx.protocol != ChainSyncProtocol.smartContract } },
            ?_, ?_, ?_, ?_, rfl⟩
    · simp [handlePendingTx, hpresent, hok]
    · exact lookup_filter_bne_eq_none st.pendingTxs pendingTxHash
    · intro kv hmem hne
      refine List.mem_filter.mpr ⟨hmem, ?_⟩
      simp only [bne_iff_ne, ne_eq]
      exact hne
    · intro kv hmem
      exact (List.mem_filter.mp hmem).1
  · intro e herr
    simp [handlePendingTx, hpresent, herr]

/-- Witness for C4 at a concrete state holding one pending tx whose
expansion yields one candidate message. -/
theorem c4_handle_pending_tx_commit_or_retry_witness :
    c4State.pendingTxs.lookup "tx-4" = some c4Tx ∧
    (∃ st2, handlePendingTx (fun _ => .ok [c4MsgDict]) 1700000999 "tx-4"
        c4State = .ok st2 ∧
      st2.pendingTxs.lookup "tx-4" = none ∧
      (∀ kv ∈ c4State.pendingTxs, kv.1 ≠ "tx-4" → kv ∈ st2.pendingTxs) ∧
      (∀ kv ∈ st2.pendingTxs, kv ∈ c4State.pendingTxs) ∧
      st2.admitted = c4State.admitted ++ [c4MsgDict].map (fun messageDict =>
        { messageDict := messageDict, receptionTime := 1700000999,
          txHash := c4Tx.hash,
          checkMessage := c4Tx.protocol != ChainSyncProtocol.smartContract })) :=
  ⟨rfl,
   (c4_handle_pending_tx_commit_or_retry (fun _ => .ok [c4MsgDict]) 1700000999
     "tx-4" c4State c4Tx rfl).1 [c4MsgDict] rfl⟩

/-- Claim C5 (admission idempotence, spec-modelled publisher): calling
add_pending_message twice on the same well-formed message dict from the
same origin leaves exactly one PendingMessage row with the dict's logical
key, and both calls return a value whose reception_time is that of the
first call. -/
theorem c5_add_pending_message_idempotent (m : Json)
    (sourceChain : Option String) (sourceHeight : Option Int)
    (t1 t2 : Int) (st : PublisherState) (key : PendingKey)
    (hkey : messagePendingKey m sourceChain sourceHeight = some key)
    (hcount : countKey st.pendingRows key ≤ 1) :
    countKey (addPendingMessage m t2 sourceChain sourceHeight
      (addPendingMessage m t1 sourceChain sourceHeight st).2).2.pendingRows
      key = 1 ∧
    (addPendingMessage m t2 sourceChain sourceHeight
      (addPendingMessage m t1 sourceChain sourceHeight st).2).1 =
      (addPendingMessage m t1 sourceChain sourceHeight st).1 ∧
    ((addPendingMessage m t1 sourceChain sourceHeight st).1).isSome := by
  cases hlook : st.pendingRows.lookup key with
  | some t0 =>
    have hpos : 0 < countKey st.pendingRows key :=
      countKey_pos_of_lookup_some _ _ _ hlook
    have heq : countKey st.pendingRows key = 1 := le_antisymm hcount hpos
    simp [addPendingMessage, hkey, hlook, heq]
  | none =>
    have hzero : countKey st.pendingRows key = 0 :=
      countKey_eq_zero_of_lookup_none _ _ hlook
    have hself : (key == key) = true := by simp
    simp only [addPendingMessage, hkey, hlook]
    refine ⟨?_, ?_, ?_⟩
    · simp only [List.lookup, hself]
      simp only [countKey, List.filter, hself]
      simp only [countKey] at hzero
      simp [hzero]
    · simp only [List.lookup, hself]
    · simp

/-- Witness for C5 at a concrete message dict admitted twice from the
peer-to-peer path into an empty pending table. -/
theorem c5_add_pending_message_idempotent_witness :
    messagePendingKey c5Message none none = some c5Key ∧
    countKey ({ pendingRows := [] } : PublisherState).pendingRows c5Key ≤ 1 ∧
    countKey (addPendingMessage c5Message 1700000302 none none
      (addPendingMessage c5Message 1700000301 none none
        { pendingRows := [] }).2).2.pendingRows c5Key = 1 ∧
    (addPendingMessage c5Message 1700000302 none none
      (addPendingMessage c5Message 1700000301 none none
        { pendingRows := [] }).2).1 =
      (addPendingMessage c5Message 1700000301 none none
        { pendingRows := [] }).1 ∧
    ((addPendingMessage c5Message 1700000301 none none
        { pendingRows := [] }).1).isSome :=
  ⟨rfl, by decide,
   (c5_add_pending_message_idempotent c5Message none none 1700000301
     1700000302 { pendingRows := [] } c5Key rfl (by decide)).1,
   (c5_add_pending_message_idempotent c5Message none none 1700000301
     1700000302 { pendingRows := [] } c5Key rfl (by decide)).2.1,
   (c5_add_pending_message_idempotent c5Message none none 1700000301
     1700000302 { pendingRows := [] } c5Key rfl (by decide)).2.2⟩

/-- Claim C8 (spec-modelled handler): a pending instance message whose
declared volume refs all resolve to no StoredFile row is rejected in one
pipeline pass: no instance row is created, the message status becomes
rejected, and the rejected_messages row carries error code
VM_VOLUME_NOT_FOUND with details.errors equal to the missing refs and no
traceback. -/
theorem c8_missing_volumes_rejected (availableRefs : List String)
    (itemHash : String) (volumeRefs : List String)
    (hmissing : ∀ ref ∈ volumeRefs, availableRefs.contains ref = false)
    (hnonempty : volumeRefs ≠ []) :
    processInstanceMessage availableRefs itemHash volumeRefs =
      { instanceRow := none, status := .rejected,
        rejectedRow := some
          { itemHash := itemHash, errorCode := .vmVolumeNotFound,
            detailsErrors := some volumeRefs, traceback := none } } := by
  have hfilter :
      (volumeRefs.filter fun ref => ! availableRefs.contains ref) = volumeRefs := by
    apply List.filter_eq_self.mpr
    intro a ha
    simpa using hmissing a ha
  simp only [processInstanceMessage]
  rw [hfilter, if_neg]
  rw [List.isEmpty_iff]
  exact hnonempty

/-- Witness for C8 at the fixture instance message of the missing-volume
scenario with an empty StoredFile table. -/
theorem c8_missing_volumes_rejected_witness :
    (∀ ref ∈ c8VolumeRefs, ([] : List String).contains ref = false) ∧
    c8VolumeRefs ≠ [] ∧
    processInstanceMessage [] c8ItemHash c8VolumeRefs =
      { instanceRow := none, status := .rejected,
        rejectedRow := some
          { itemHash := c8ItemHash, errorCode := .vmVolumeNotFound,
            detailsErrors := some c8VolumeRefs, traceback := none } } :=
  ⟨by decide, by decide,
   c8_missing_volumes_rejected [] c8ItemHash c8VolumeRefs (by decide)
     (by decide)⟩

/-- Claim C1 (counterexample): on a pending table of 100002 documents the
sweep deletes the document whose source height (10) is strictly above the
recorded height (5) of its logical key and preserves the same-key document
at height 3, so a deleted row has higher source height than a preserved
same-key row and the row with the highest source height is not the one
preserved. -/
theorem c1_cleanup_counterexample :
    c1Table.length > 100000 ∧
    c1HighRow ∈ c1Table ∧
    c1HighRow ∉ processPendingMessagesCleanup c1SeenIds c1Table ∧
    c1LowRow ∈ processPendingMessagesCleanup c1SeenIds c1Table ∧
    c1HighRow.itemHash = c1LowRow.itemHash ∧
    c1HighRow.sender = c1LowRow.sender ∧
    c1HighRow.source.chainName = c1LowRow.source.chainName ∧
    c1HighRow.source.height = some 10 ∧
    c1LowRow.source.height = some 3 := by
  have hlen : c1Table.length > 100000 := by
    show (c1HighRow :: c1LowRow :: List.replicate 100000 c1Filler).length
      > 100000
    rw [List.length_cons, List.length_cons, List.length_replicate]
    omega
  have hrun : processPendingMessagesCleanup c1SeenIds c1Table =
      cleanupSweep c1SeenIds c1Table := by
    simp only [processPendingMessagesCleanup]
    rw [if_pos hlen]
  refine ⟨hlen, List.mem_cons_self _ _, ?_, ?_, rfl, rfl, rfl, rfl, rfl⟩
  · rw [hrun]
    intro hmem
    have hpred := (List.mem_filter.mp hmem).2
    exact absurd hpred (by decide)
  · rw [hrun]
    refine List.mem_filter.mpr ⟨?_, by decide⟩
    exact List.mem_cons_of_mem _ (List.mem_cons_self _ _)

/-- Claim C1 (amended): whenever the pending table holds more than 100000
documents, the cleanup sweep deletes exactly the documents matching some
seen_ids entry on (item_hash, sender, chain) with source height strictly
greater than the recorded height; every other document, in particular the
one at the recorded height, is preserved. -/
theorem c1_cleanup_deletes_higher_only
    (seenIds : List ((String × String × Option String) × Int))
    (docs : List PendingMessageDoc) (hcount : docs.length > 100000)
    (doc : PendingMessageDoc) :
    doc ∈ processPendingMessagesCleanup seenIds docs ↔
      doc ∈ docs ∧
      ∀ kv ∈ seenIds, matchesCleanupFilter kv.1 kv.2 doc = false := by
  simp only [processPendingMessagesCleanup]
  rw [if_pos hcount]
  simp only [cleanupSweep, List.mem_filter]
  constructor
  · rintro ⟨hm, hp⟩
    refine ⟨hm, fun kv hkv => ?_⟩
    cases hval : matchesCleanupFilter kv.1 kv.2 doc
    · rfl
    · have hany : (seenIds.any fun kv => matchesCleanupFilter kv.1 kv.2 doc)
          = true :=
        List.any_eq_true.mpr ⟨kv, hkv, hval⟩
      rw [hany] at hp
      exact absurd hp (by decide)
  · rintro ⟨hm, hall⟩
    refine ⟨hm, ?_⟩
    have hany : (seenIds.any fun kv => matchesCleanupFilter kv.1 kv.2 doc)
        = false := by
      rw [List.any_eq_false]
      intro kv hkv
      simp [hall kv hkv]
    rw [hany]
    rfl

/-- Witness for the amended C1 on a table of 100001 filler documents and an
empty seen_ids window. -/
theorem c1_cleanup_deletes_higher_only_witness :
    (List.replicate 100001 c1Filler).length > 100000 ∧
    (c1Filler ∈ processPendingMessagesCleanup []
        (List.replicate 100001 c1Filler) ↔
      c1Filler ∈ List.replicate 100001 c1Filler ∧
      ∀ kv ∈ ([] : List ((String × String × Option String) × Int)),
        matchesCleanupFilter kv.1 kv.2 c1Filler = false) :=
  ⟨by rw [List.length_replicate]; omega,
   c1_cleanup_deletes_higher_only [] (List.replicate 100001 c1Filler)
     (by rw [List.length_replicate]; omega) c1Filler⟩

end AlephCore
